import Mathlib

/-!
Verification of the Aquarium rendering benchmark core
(web-intel/aquarium).

Shallow embedding of:
* `Aquarium::calculateFishCount` (src/aquarium-optimized/Aquarium.cpp:628-653)
* the behavior-queue / realloc part of `Aquarium::render`
  (src/aquarium-optimized/Aquarium.cpp:745-788)
* the batched drawing pass of `Aquarium::updateAndDraw`
  (src/aquarium-optimized/Aquarium.cpp:876-888)
* `ContextDawn::reallocResource` / `destoryFishResource`
  (src/aquarium-optimized/dawn/ContextDawn.cpp:729-783, 825-860)
* `ContextDawn::DoFlush` / `MapWriteCallback` / `WaitABit`
  (src/aquarium-optimized/dawn/ContextDawn.cpp:608-637, 785-810)
* `FPSTimer::update` / `FPSTimer::variance` (src/common/FPSTimer.cpp)
* the `memset` initialisation of `fishCount` in the `Aquarium`
  constructor (src/aquarium-optimized/Aquarium.cpp:84)

C++ `int` values are modelled as `Int` (no arithmetic here comes close
to overflow), C++ `float`/`double` values as `ℚ` (exact arithmetic;
the properties below do not depend on rounding error), and GPU side
effects as explicit operation traces.
-/

/-! ### Species table and tuning constants

Modelled from the spec: the fixed species table and the allocation
tuning constants live in `Aquarium.h`, which is not part of the
sources; §4.2 of the spec fixes the class priority order
(BIG, MEDIUM, SMALL), one SMALL species receiving the remaining
balance, and class-specific constants that are configuration, not
algorithm.  The theorems below do not depend on the exact values,
only on them being non-negative.
-/

/-- Modelled from the spec: threshold below which a BIG species gets 1
instance instead of 2 (`g_numFishSmall` in `Aquarium.h`). -/
def g_numFishSmall : Int := 100

/-- Modelled from the spec: MEDIUM tier boundary (`g_numFishMedium`). -/
def g_numFishMedium : Int := 1000

/-- Modelled from the spec: MEDIUM tier boundary (`g_numFishBig`). -/
def g_numFishBig : Int := 10000

/-- Modelled from the spec: MEDIUM fixed count below the big
threshold (`g_numFishLeftSmall`). -/
def g_numFishLeftSmall : Int := 80

/-- Modelled from the spec: MEDIUM fixed count above the big
threshold (`g_numFishLeftBig`). -/
def g_numFishLeftBig : Int := 160

/-- Fish size classes, in the declared priority order of the
`FISHENUM` enum (`BIG`, `MEDIUM`, `SMALL`). -/
inductive FISHENUM
  | BIG
  | MEDIUM
  | SMALL
deriving DecidableEq

/-- One row of the species table: the index of the species'
`fishCount` slot (`modelName - MODELNAME::MODELSMALLFISHA`) and its
size class. -/
structure FishInfo where
  modelIdx : Nat
  type : FISHENUM
deriving DecidableEq

/-- Modelled from the spec: the fixed, ordered species table
(`fishTable` in `Aquarium.h`): one SMALL species, two MEDIUM species,
two BIG species, five `fishCount` slots in all. -/
def fishTable : List FishInfo :=
  [⟨0, FISHENUM.SMALL⟩, ⟨1, FISHENUM.MEDIUM⟩, ⟨2, FISHENUM.MEDIUM⟩,
   ⟨3, FISHENUM.BIG⟩, ⟨4, FISHENUM.BIG⟩]

/-- The per-species allocation rule of `Aquarium::calculateFishCount`
(Aquarium.cpp:636-648): the body of the inner loop that computes
`numfloat` for one species of class `ty`, given the requested total
`curFishCount` and the remaining pool `numLeft`.  C++ integer
division truncates towards zero, hence `Int.tdiv`. -/
def speciesAlloc (curFishCount numLeft : Int) (ty : FISHENUM) : Int :=
  match ty with
  | FISHENUM.BIG => min numLeft (if curFishCount < g_numFishSmall then 1 else 2)
  | FISHENUM.MEDIUM =>
      if curFishCount < g_numFishMedium then min numLeft (Int.tdiv curFishCount 10)
      else if curFishCount < g_numFishBig then min numLeft g_numFishLeftSmall
      else min numLeft g_numFishLeftBig
  | FISHENUM.SMALL => numLeft

/-- One pass of the outer loop of `Aquarium::calculateFishCount`
(Aquarium.cpp:631-652): walk the species table in order, skip species
whose class is not `ty`, allocate `speciesAlloc` to the others,
decrease the remaining pool and write the count into the species'
`fishCount` slot. -/
def fishCountPass (cur : Int) (ty : FISHENUM) :
    List FishInfo → Int × (Nat → Int) → Int × (Nat → Int)
  | [], acc => acc
  | info :: rest, (numLeft, counts) =>
      if info.type = ty then
        let numfloat := speciesAlloc cur numLeft ty
        fishCountPass cur ty rest
          (numLeft - numfloat, fun j => if j = info.modelIdx then numfloat else counts j)
      else fishCountPass cur ty rest (numLeft, counts)

/-- `Aquarium::calculateFishCount` (Aquarium.cpp:628-653): starting
from `numLeft = mCurFishCount` and the previous contents `counts0` of
the `fishCount` array, run the three passes of the outer loop in
`FISHENUM` order (`BIG`, `MEDIUM`, `SMALL`) and return the final
`fishCount` array. -/
def calculateFishCount (cur : Int) (counts0 : Nat → Int) : Nat → Int :=
  (fishCountPass cur FISHENUM.SMALL fishTable
    (fishCountPass cur FISHENUM.MEDIUM fishTable
      (fishCountPass cur FISHENUM.BIG fishTable (cur, counts0)))).2

theorem speciesAlloc_bounds (cur numLeft : Int) (ty : FISHENUM)
    (h : 0 ≤ numLeft) (hq : 0 ≤ Int.tdiv cur 10) :
    0 ≤ speciesAlloc cur numLeft ty ∧ speciesAlloc cur numLeft ty ≤ numLeft := by
  cases ty <;>
    simp only [speciesAlloc, g_numFishSmall, g_numFishMedium, g_numFishBig,
      g_numFishLeftSmall, g_numFishLeftBig] <;>
    (try split_ifs) <;> omega

theorem fishCountPass_BIG (cur nl : Int) (c : Nat → Int) :
    fishCountPass cur FISHENUM.BIG fishTable (nl, c) =
      (nl - speciesAlloc cur nl FISHENUM.BIG -
         speciesAlloc cur (nl - speciesAlloc cur nl FISHENUM.BIG) FISHENUM.BIG,
       fun j =>
         if j = 4 then speciesAlloc cur (nl - speciesAlloc cur nl FISHENUM.BIG) FISHENUM.BIG
         else if j = 3 then speciesAlloc cur nl FISHENUM.BIG
         else c j) := rfl

theorem fishCountPass_MEDIUM (cur nl : Int) (c : Nat → Int) :
    fishCountPass cur FISHENUM.MEDIUM fishTable (nl, c) =
      (nl - speciesAlloc cur nl FISHENUM.MEDIUM -
         speciesAlloc cur (nl - speciesAlloc cur nl FISHENUM.MEDIUM) FISHENUM.MEDIUM,
       fun j =>
         if j = 2 then speciesAlloc cur (nl - speciesAlloc cur nl FISHENUM.MEDIUM) FISHENUM.MEDIUM
         else if j = 1 then speciesAlloc cur nl FISHENUM.MEDIUM
         else c j) := rfl

theorem fishCountPass_SMALL (cur nl : Int) (c : Nat → Int) :
    fishCountPass cur FISHENUM.SMALL fishTable (nl, c) =
      (nl - nl, fun j => if j = 0 then nl else c j) := rfl

/-- **C1.** For every requested total `T ≥ 0`, `calculateFishCount`
assigns every one of the five species a non-negative count, and the
five per-species counts sum to exactly `T` (regardless of the
previous contents of the `fishCount` array). -/
theorem calculateFishCount_nonneg_sum (T : Int) (c0 : Nat → Int) (h : 0 ≤ T) :
    (0 ≤ calculateFishCount T c0 0 ∧ 0 ≤ calculateFishCount T c0 1 ∧
     0 ≤ calculateFishCount T c0 2 ∧ 0 ≤ calculateFishCount T c0 3 ∧
     0 ≤ calculateFishCount T c0 4) ∧
    calculateFishCount T c0 0 + calculateFishCount T c0 1 + calculateFishCount T c0 2 +
      calculateFishCount T c0 3 + calculateFishCount T c0 4 = T := by
  have hq : 0 ≤ Int.tdiv T 10 := Int.tdiv_nonneg h (by norm_num)
  simp only [calculateFishCount, fishCountPass_BIG, fishCountPass_MEDIUM, fishCountPass_SMALL]
  have b3 := speciesAlloc_bounds T T FISHENUM.BIG h hq
  set a3 := speciesAlloc T T FISHENUM.BIG with ha3
  have b4 := speciesAlloc_bounds T (T - a3) FISHENUM.BIG (by omega) hq
  set a4 := speciesAlloc T (T - a3) FISHENUM.BIG with ha4
  have b1 := speciesAlloc_bounds T (T - a3 - a4) FISHENUM.MEDIUM (by omega) hq
  set a1 := speciesAlloc T (T - a3 - a4) FISHENUM.MEDIUM with ha1
  have b2 := speciesAlloc_bounds T (T - a3 - a4 - a1) FISHENUM.MEDIUM (by omega) hq
  set a2 := speciesAlloc T (T - a3 - a4 - a1) FISHENUM.MEDIUM with ha2
  norm_num
  omega

/-- Witness for C1 at the default startup total `T = 500` and a
zeroed `fishCount` array. -/
theorem calculateFishCount_nonneg_sum_witness :
    (0 ≤ calculateFishCount 500 (fun _ => 0) 0 ∧
     0 ≤ calculateFishCount 500 (fun _ => 0) 1 ∧
     0 ≤ calculateFishCount 500 (fun _ => 0) 2 ∧
     0 ≤ calculateFishCount 500 (fun _ => 0) 3 ∧
     0 ≤ calculateFishCount 500 (fun _ => 0) 4) ∧
    calculateFishCount 500 (fun _ => 0) 0 + calculateFishCount 500 (fun _ => 0) 1 +
      calculateFishCount 500 (fun _ => 0) 2 + calculateFishCount 500 (fun _ => 0) 3 +
      calculateFishCount 500 (fun _ => 0) 4 = 500 :=
  calculateFishCount_nonneg_sum 500 (fun _ => 0) (by norm_num)

/-! ### Behavior queue and the per-frame population step

Embedding of the `SIMULATINGFISHCOMEANDGO` block and the fish-count
reallocation block of `Aquarium::render` (Aquarium.cpp:745-788).
-/

/-- One scripted population event (`Behavior` in `Aquarium.h`, loaded
by `Aquarium::loadFishScenario`, Aquarium.cpp:494-514): a frame
countdown, an op string (`"+"` adds, anything else subtracts, see
Aquarium.cpp:759-763) and a count. -/
structure Behavior where
  frame : Int
  op : String
  count : Int
deriving DecidableEq

/-- Applying a popped behavior event to `mCurFishCount`
(Aquarium.cpp:759-763). -/
def applyBehaviorOp (total : Int) (behave : Behavior) : Int :=
  if behave.op = "+" then total + behave.count else total - behave.count

/-- The behavior-queue step of `Aquarium::render`
(Aquarium.cpp:753-769): if the queue is non-empty, peek the front
event; if its countdown is 0, pop it and apply its delta to the
total, otherwise decrement its countdown in place.  At most one event
is popped per frame. -/
def behaviorStep : List Behavior × Int → List Behavior × Int
  | ([], total) => ([], total)
  | (behave :: rest, total) =>
      if behave.frame = 0 then (rest, applyBehaviorOp total behave)
      else ({ behave with frame := behave.frame - 1 } :: rest, total)

theorem behaviorStep_decrement (n : Int) (op : String) (cnt total : Int)
    (rest : List Behavior) (hn : n ≠ 0) :
    behaviorStep (⟨n, op, cnt⟩ :: rest, total) = (⟨n - 1, op, cnt⟩ :: rest, total) := by
  simp [behaviorStep, hn]

/-- **C4.** FIFO processing of the behavior queue: a head event with
countdown `k` is decremented by exactly 1 on each of the first `k`
steps (the rest of the queue and the fish total staying untouched, so
events are never reordered and no later event is applied first), it
reaches countdown 0 after exactly `k` steps, and the `(k+1)`-th step
pops exactly this one event and applies its delta to the fish total —
in particular an event already at countdown 0 is applied on the very
next scheduled step. -/
theorem behaviorQueue_fifo (k : Nat) (op : String) (cnt total : Int)
    (rest : List Behavior) :
    (∀ j : Nat, j ≤ k →
        behaviorStep^[j] (⟨(k : Int), op, cnt⟩ :: rest, total) =
          (⟨((k - j : Nat) : Int), op, cnt⟩ :: rest, total)) ∧
    behaviorStep^[k + 1] (⟨(k : Int), op, cnt⟩ :: rest, total) =
      (rest, applyBehaviorOp total ⟨0, op, cnt⟩) := by
  have key : ∀ j : Nat, j ≤ k →
      behaviorStep^[j] (⟨(k : Int), op, cnt⟩ :: rest, total) =
        (⟨((k - j : Nat) : Int), op, cnt⟩ :: rest, total) := by
    intro j
    induction j with
    | zero => intro _; simp
    | succ j ih =>
        intro hj
        have hj' : j ≤ k := Nat.le_of_succ_le hj
        rw [Function.iterate_succ_apply', ih hj']
        have hne : ((k - j : Nat) : Int) ≠ 0 := by omega
        rw [behaviorStep_decrement _ _ _ _ _ hne]
        have : ((k - j : Nat) : Int) - 1 = ((k - (j + 1) : Nat) : Int) := by omega
        rw [this]
  refine ⟨key, ?_⟩
  rw [Function.iterate_succ_apply', key k le_rfl]
  have h0 : ((k - k : Nat) : Int) = 0 := by omega
  rw [h0]
  have happ : applyBehaviorOp total ⟨(0 : Int), op, cnt⟩ =
      applyBehaviorOp total ⟨0, op, cnt⟩ := rfl
  simp [behaviorStep]

/-- Witness for C4: an event with countdown 2 is untouched for two
steps and applied on the third. -/
theorem behaviorQueue_fifo_witness :
    behaviorStep^[1] ([⟨(2 : Int), "+", 7⟩], (500 : Int)) = ([⟨1, "+", 7⟩], 500) ∧
    behaviorStep^[3] ([⟨(2 : Int), "+", 7⟩], (500 : Int)) = ([], 507) := by
  have h := behaviorQueue_fifo 2 "+" 7 500 []
  refine ⟨?_, ?_⟩
  · have := h.1 1 (by norm_num)
    simpa using this
  · have := h.2
    simpa [applyBehaviorOp] using this

/-- The population-related state of `Aquarium` that
`Aquarium::render` reads and writes: the current fish count
(`mCurFishCount`), the previously realized count (`mPreFishCount`),
the per-species `fishCount` array, the scripted behavior queue
(`mFishBehavior`), and a counter of `resetFpsTime` calls (abstracting
the `g.start`/`g.then` timing baseline, Aquarium.cpp:406-415). -/
structure AquariumState where
  curFishCount : Int
  preFishCount : Int
  fishCount : Nat → Int
  fishBehavior : List Behavior
  fpsResetCount : Nat

/-- The externally visible actions of the reallocation block of
`Aquarium::render` (Aquarium.cpp:776-785), in program order. -/
inductive FrameAction
  | recomputeAllocation
  | reallocResourceCall (pre cur : Int) (dyn : Bool)
  | recordRealized (cur : Int)
  | resetFpsTimeCall
deriving DecidableEq

/-- The `SIMULATINGFISHCOMEANDGO` block of `Aquarium::render`
(Aquarium.cpp:753-769): when the toggle is set, advance the behavior
queue by exactly one step, updating `mCurFishCount`. -/
def simulateFishPhase (s : AquariumState) (simulating : Bool) : AquariumState :=
  if simulating then
    let qa := behaviorStep (s.fishBehavior, s.curFishCount)
    { s with fishBehavior := qa.1, curFishCount := qa.2 }
  else s

/-- The reallocation block of `Aquarium::render`
(Aquarium.cpp:775-785), for the (only reachable) configuration with
instanced draws disabled: when `mCurFishCount ≠ mPreFishCount`,
recompute the allocation, call `reallocResource` with the old and new
totals, record the new realized count, and reset the FPS timing
baseline; otherwise do none of this. -/
def reallocPhase (s : AquariumState) (dyn : Bool) : AquariumState × List FrameAction :=
  if s.curFishCount ≠ s.preFishCount then
    ({ s with fishCount := calculateFishCount s.curFishCount s.fishCount,
              preFishCount := s.curFishCount,
              fpsResetCount := s.fpsResetCount + 1 },
     [FrameAction.recomputeAllocation,
      FrameAction.reallocResourceCall s.preFishCount s.curFishCount dyn,
      FrameAction.recordRealized s.curFishCount,
      FrameAction.resetFpsTimeCall])
  else (s, [])

/-- The population-management part of one `Aquarium::render` frame
(Aquarium.cpp:745-788): the behavior-queue phase followed by the
reallocation phase. -/
def renderStep (s : AquariumState) (simulating dyn : Bool) :
    AquariumState × List FrameAction :=
  reallocPhase (simulateFishPhase s simulating) dyn

/-- **C5.** In every frame, with `s1` the state after the
behavior-queue phase (which never touches the allocation, the
realized count or the FPS baseline): if the current fish count
differs from the previously realized count, the frame performs, in
order, exactly the four actions — recompute the per-species
allocation, call the buffer reallocation with the old and the new
total, record the new count as realized, reset the FPS timing
baseline — and the state reflects them; if the two counts are equal,
none of the four actions happens and allocation, realized count and
FPS baseline are unchanged. -/
theorem renderStep_population_change (s s1 : AquariumState) (simulating dyn : Bool)
    (hs1 : simulateFishPhase s simulating = s1) :
    (s1.fishCount = s.fishCount ∧ s1.preFishCount = s.preFishCount ∧
       s1.fpsResetCount = s.fpsResetCount) ∧
    (s1.curFishCount ≠ s.preFishCount →
       renderStep s simulating dyn =
         ({ s1 with fishCount := calculateFishCount s1.curFishCount s.fishCount,
                    preFishCount := s1.curFishCount,
                    fpsResetCount := s.fpsResetCount + 1 },
          [FrameAction.recomputeAllocation,
           FrameAction.reallocResourceCall s.preFishCount s1.curFishCount dyn,
           FrameAction.recordRealized s1.curFishCount,
           FrameAction.resetFpsTimeCall])) ∧
    (s1.curFishCount = s.preFishCount →
       renderStep s simulating dyn = (s1, []) ∧
       (renderStep s simulating dyn).1.fishCount = s.fishCount ∧
       (renderStep s simulating dyn).1.preFishCount = s.preFishCount) := by
  have hfields : s1.fishCount = s.fishCount ∧ s1.preFishCount = s.preFishCount ∧
      s1.fpsResetCount = s.fpsResetCount := by
    rw [← hs1]
    unfold simulateFishPhase
    split <;> simp
  refine ⟨hfields, ?_, ?_⟩
  · intro hne
    unfold renderStep reallocPhase
    rw [hs1, if_pos (by rw [hfields.2.1]; exact hne)]
    rw [hfields.1, hfields.2.1, hfields.2.2]
  · intro heq
    unfold renderStep reallocPhase
    rw [hs1, if_neg (by rw [hfields.2.1]; simp [heq])]
    exact ⟨rfl, hfields.1, hfields.2.1⟩

/-- Witness for C5: a frame whose fish count changed from 500 to 1000
(no scripted events) performs exactly the four actions. -/
theorem renderStep_population_change_witness :
    renderStep ⟨1000, 500, fun _ => 0, [], 0⟩ false true =
      ({ curFishCount := 1000, preFishCount := 1000,
         fishCount := calculateFishCount 1000 (fun _ => 0),
         fishBehavior := [], fpsResetCount := 1 },
       [FrameAction.recomputeAllocation,
        FrameAction.reallocResourceCall 500 1000 true,
        FrameAction.recordRealized 1000,
        FrameAction.resetFpsTimeCall]) := by
  have h := renderStep_population_change ⟨1000, 500, fun _ => 0, [], 0⟩
    ⟨1000, 500, fun _ => 0, [], 0⟩ false true rfl
  exact h.2.1 (by norm_num)

/-- **C6 (counterexample).** The code does not clamp subtraction
(Aquarium.cpp:762: `mCurFishCount -= behave->getCount();`): from the
startup total 500, a scripted event `{frame 0, op "-", count 600}` —
a legal scenario-file entry — drives the fish count to `-100 < 0` in
a single frame, refuting the claimed invariant `total ≥ 0`. -/
theorem fishCount_nonneg_counterexample :
    (renderStep ⟨500, 500, fun _ => 0, [⟨0, "-", 600⟩], 0⟩ true false).1.curFishCount
        = -100 ∧
    ¬ (0 ≤ (renderStep ⟨500, 500, fun _ => 0, [⟨0, "-", 600⟩], 0⟩
              true false).1.curFishCount) := by
  constructor
  · rfl
  · intro hcontra
    rw [show (renderStep ⟨500, 500, fun _ => 0, [⟨0, "-", 600⟩], 0⟩
          true false).1.curFishCount = -100 from rfl] at hcontra
    omega

/-- **C6 (amended).** One behavior-queue step preserves a
non-negative fish total provided that the event it applies (the head
event, when its countdown has reached 0) keeps the total
non-negative: a `"+"` event must carry a non-negative count and any
other (subtracting) event a count that does not exceed the current
total.  The code itself never clamps, so without this side condition
the total can go negative. -/
theorem behaviorStep_nonneg (q : List Behavior) (total : Int) (h0 : 0 ≤ total)
    (hsafe : ∀ b : Behavior, q.head? = some b → b.frame = 0 →
       (if b.op = "+" then 0 ≤ b.count else b.count ≤ total)) :
    0 ≤ (behaviorStep (q, total)).2 := by
  match q with
  | [] => exact h0
  | behave :: rest =>
      have hb := hsafe behave rfl
      by_cases hf : behave.frame = 0
      · have hstep : behaviorStep (behave :: rest, total) =
            (rest, applyBehaviorOp total behave) := by
          simp [behaviorStep, hf]
        rw [hstep]
        have := hb hf
        unfold applyBehaviorOp
        by_cases hop : behave.op = "+"
        · rw [if_pos hop] at this ⊢
          omega
        · rw [if_neg hop] at this ⊢
          omega
      · have hstep : (behaviorStep (behave :: rest, total)).2 = total := by
          simp [behaviorStep, hf]
        rw [hstep]
        exact h0

/-- Witness for C6 (amended): a subtracting event whose count does
not exceed the current total keeps the total non-negative. -/
theorem behaviorStep_nonneg_witness :
    0 ≤ (behaviorStep ([⟨0, "-", 300⟩], (500 : Int))).2 :=
  behaviorStep_nonneg [⟨0, "-", 300⟩] 500 (by norm_num)
    (by intro b hb hf; simp at hb; subst hb; norm_num)

/-! ### Dawn per-fish GPU resources

Embedding of `ContextDawn::reallocResource`
(ContextDawn.cpp:729-783) and `ContextDawn::destoryFishResource`
(ContextDawn.cpp:825-860).  GPU calls are recorded as an operation
trace; the state tracks which per-fish resources are live.
-/

/-- The per-fish resource state of `ContextDawn`: the mirror fields
set at the top of `reallocResource`, whether the CPU-side `fishPers`
array, the GPU `fishPersBuffer` and the staging buffer are live, and
how many bind groups `bindGroupFishPers` holds. -/
structure FishResourceState where
  preTotalInstance : Int
  curTotalInstance : Int
  enableDynamicBufferOffset : Bool
  fishPersAllocated : Bool
  fishPersBufferLive : Bool
  stagingBufferLive : Bool
  bindGroupCount : Nat
deriving DecidableEq

/-- GPU-resource operations performed by `reallocResource`, in
program order. -/
inductive ResourceOp
  | destroyFishResource
  | createFishPersBuffer (instances : Int)
  | createStagingBuffer (instances : Int)
  | createBindGroup (index : Nat)
deriving DecidableEq

/-- `ContextDawn::destoryFishResource` (ContextDawn.cpp:825-860):
release the per-fish uniform buffer, the staging buffer, the
`fishPers` array and every live bind group. -/
def destoryFishResource (s : FishResourceState) : FishResourceState :=
  { s with fishPersAllocated := false,
           fishPersBufferLive := false,
           stagingBufferLive := false,
           bindGroupCount := 0 }

/-- The outcome of one `reallocResource` call: a normal return with
the final state and the GPU operations performed, or the fatal
`std::bad_array_new_length` thrown by `new FishPer[curTotalInstance]`
(ContextDawn.cpp:750) when the requested count is negative — the
process aborts there with the previous resources already destroyed
and nothing created; the trace holds the operations performed up to
the throw. -/
inductive ReallocResult
  | ok (s : FishResourceState) (ops : List ResourceOp)
  | fatalBadArrayNewLength (s : FishResourceState) (ops : List ResourceOp)
deriving DecidableEq

/-- The resource state at return (or at the throw). -/
def ReallocResult.state : ReallocResult → FishResourceState
  | ReallocResult.ok s _ => s
  | ReallocResult.fatalBadArrayNewLength s _ => s

/-- The operation trace up to return (or up to the throw). -/
def ReallocResult.ops : ReallocResult → List ResourceOp
  | ReallocResult.ok _ ops => ops
  | ReallocResult.fatalBadArrayNewLength _ ops => ops

/-- Whether the call returned normally. -/
def ReallocResult.isOk : ReallocResult → Bool
  | ReallocResult.ok _ _ => true
  | ReallocResult.fatalBadArrayNewLength _ _ => false

/-- `ContextDawn::reallocResource` (ContextDawn.cpp:729-783): record
the mirror fields; return untouched when `curTotalInstance == 0`
(ContextDawn.cpp:737) or `preTotalInstance >= curTotalInstance`
(ContextDawn.cpp:743); otherwise destroy the previous per-fish
resources (ContextDawn.cpp:748) and allocate `new
FishPer[curTotalInstance]` (ContextDawn.cpp:750) — which throws
`std::bad_array_new_length` if `curTotalInstance` is negative — then
create the per-fish uniform buffer and the staging buffer sized for
`curTotalInstance` records, and one bind group per instance — a
single bind group when dynamic buffer offsets are enabled. -/
def reallocResource (s : FishResourceState) (preTotalInstance curTotalInstance : Int)
    (enableDynamicBufferOffset : Bool) : ReallocResult :=
  let s0 := { s with preTotalInstance := preTotalInstance,
                     curTotalInstance := curTotalInstance,
                     enableDynamicBufferOffset := enableDynamicBufferOffset }
  if curTotalInstance = 0 then ReallocResult.ok s0 []
  else if preTotalInstance ≥ curTotalInstance then ReallocResult.ok s0 []
  else
    let sd := destoryFishResource s0
    if curTotalInstance < 0 then
      ReallocResult.fatalBadArrayNewLength sd [ResourceOp.destroyFishResource]
    else
      ReallocResult.ok
        { sd with fishPersAllocated := true,
                  fishPersBufferLive := true,
                  stagingBufferLive := true,
                  bindGroupCount := if enableDynamicBufferOffset then 1
                                    else curTotalInstance.toNat }
        (ResourceOp.destroyFishResource ::
          ResourceOp.createFishPersBuffer curTotalInstance ::
          ResourceOp.createStagingBuffer curTotalInstance ::
          (if enableDynamicBufferOffset then [ResourceOp.createBindGroup 0]
           else (List.range curTotalInstance.toNat).map ResourceOp.createBindGroup))

/-- Recognizer for bind-group creation ops. -/
def isBindGroupCreate : ResourceOp → Bool
  | ResourceOp.createBindGroup _ => true
  | _ => false

/-- The error path of `reallocResource`, kept explicit in the model:
a growth request with a negative count — possible only if the
scripted-population underflow has already driven the fish total
negative — destroys the previous resources and then aborts at `new
FishPer[curTotalInstance]` (ContextDawn.cpp:750); nothing is
created. -/
theorem reallocResource_negative_growth_fatal (s : FishResourceState)
    (pre cur : Int) (dyn : Bool) (hlt : pre < cur) (hneg : cur < 0) :
    reallocResource s pre cur dyn =
      ReallocResult.fatalBadArrayNewLength
        (destoryFishResource { s with preTotalInstance := pre,
                                      curTotalInstance := cur,
                                      enableDynamicBufferOffset := dyn })
        [ResourceOp.destroyFishResource] := by
  unfold reallocResource
  rw [if_neg (by omega), if_neg (by omega), if_pos hneg]

/-- **C2.** For every call `reallocResource(prev, cur, dyn)` with a
non-negative previously realized count `prev` (the value recorded by
the frame loop; in a well-formed run it is never negative): if
`cur ≤ prev`, the call returns normally having destroyed and created
nothing — no buffer is replaced; if `cur > prev` (hence `cur ≥ 1`,
so the negative-size throw at ContextDawn.cpp:750 cannot fire), the
call returns normally and performs exactly one replacement: exactly
one destruction of the previous per-fish buffer and bind groups,
happening first, followed by exactly one new per-fish uniform buffer
(together with its matching staging buffer) plus one bind group per
instance — a single bind group when dynamic-offset mode is
enabled. -/
theorem reallocResource_spec (s : FishResourceState) (pre cur : Int) (dyn : Bool)
    (hpre : 0 ≤ pre) :
    (cur ≤ pre →
       (reallocResource s pre cur dyn).isOk = true ∧
       (reallocResource s pre cur dyn).ops = [] ∧
       (reallocResource s pre cur dyn).state.fishPersBufferLive = s.fishPersBufferLive ∧
       (reallocResource s pre cur dyn).state.stagingBufferLive = s.stagingBufferLive ∧
       (reallocResource s pre cur dyn).state.bindGroupCount = s.bindGroupCount) ∧
    (pre < cur →
       (reallocResource s pre cur dyn).isOk = true ∧
       ((reallocResource s pre cur dyn).ops.count ResourceOp.destroyFishResource = 1 ∧
        (reallocResource s pre cur dyn).ops.head? = some ResourceOp.destroyFishResource) ∧
       (reallocResource s pre cur dyn).ops.count (ResourceOp.createFishPersBuffer cur) = 1 ∧
       (reallocResource s pre cur dyn).ops.count (ResourceOp.createStagingBuffer cur) = 1 ∧
       ((reallocResource s pre cur dyn).ops.filter isBindGroupCreate).length =
         (if dyn then 1 else cur.toNat) ∧
       (reallocResource s pre cur dyn).state.fishPersBufferLive = true ∧
       (reallocResource s pre cur dyn).state.stagingBufferLive = true ∧
       (reallocResource s pre cur dyn).state.bindGroupCount =
         (if dyn then 1 else cur.toNat)) := by
  constructor
  · intro hno
    unfold reallocResource
    rcases eq_or_ne cur 0 with hz | hz
    · rw [if_pos hz]
      exact ⟨rfl, rfl, rfl, rfl, rfl⟩
    · have hle : pre ≥ cur := by omega
      rw [if_neg hz, if_pos hle]
      exact ⟨rfl, rfl, rfl, rfl, rfl⟩
  · intro hlt
    unfold reallocResource
    rw [if_neg (by omega), if_neg (by omega), if_neg (by omega)]
    have hcount : ∀ (l : List Nat) (p : ResourceOp), (∀ i, p ≠ ResourceOp.createBindGroup i) →
        (l.map ResourceOp.createBindGroup).count p = 0 := by
      intro l p hp
      induction l with
      | nil => rfl
      | cons i rest ih => simp [List.count_cons, ih, (hp i).symm]
    have hfilter : ∀ l : List Nat,
        ((l.map ResourceOp.createBindGroup).filter isBindGroupCreate).length = l.length := by
      intro l
      induction l with
      | nil => rfl
      | cons i rest ih => simp [List.filter_cons, isBindGroupCreate, ih]
    refine ⟨rfl, ⟨?_, rfl⟩, ?_, ?_, ?_, rfl, rfl, rfl⟩ <;>
      rcases dyn with _ | _ <;>
      simp [ReallocResult.ops, List.count_cons, hcount, hfilter, isBindGroupCreate,
        List.filter_cons]

/-- Witness for C2: growing from 500 to 1000 without dynamic offsets
returns normally and performs one destruction first and one
replacement with 1000 bind groups. -/
theorem reallocResource_spec_witness :
    (reallocResource ⟨0, 500, false, true, true, true, 500⟩ 500 1000 false).isOk = true ∧
    ((reallocResource ⟨0, 500, false, true, true, true, 500⟩ 500 1000 false).ops.count
        ResourceOp.destroyFishResource = 1 ∧
     (reallocResource ⟨0, 500, false, true, true, true, 500⟩ 500 1000 false).ops.head? =
        some ResourceOp.destroyFishResource) ∧
    (reallocResource ⟨0, 500, false, true, true, true, 500⟩ 500 1000 false).ops.count
        (ResourceOp.createFishPersBuffer 1000) = 1 ∧
    (reallocResource ⟨0, 500, false, true, true, true, 500⟩ 500 1000 false).ops.count
        (ResourceOp.createStagingBuffer 1000) = 1 ∧
    ((reallocResource ⟨0, 500, false, true, true, true, 500⟩ 500 1000
        false).ops.filter isBindGroupCreate).length = (if false then 1 else (1000 : Int).toNat) ∧
    (reallocResource ⟨0, 500, false, true, true, true, 500⟩ 500 1000
        false).state.fishPersBufferLive = true ∧
    (reallocResource ⟨0, 500, false, true, true, true, 500⟩ 500 1000
        false).state.stagingBufferLive = true ∧
    (reallocResource ⟨0, 500, false, true, true, true, 500⟩ 500 1000
        false).state.bindGroupCount = (if false then 1 else (1000 : Int).toNat) :=
  (reallocResource_spec ⟨0, 500, false, true, true, true, 500⟩ 500 1000 false
    (by norm_num)).2 (by norm_num)

/-! ### Double-buffered submission with asynchronous mapping

Embedding of `ContextDawn::DoFlush` (ContextDawn.cpp:608-637),
`ContextDawn::Flush` (ContextDawn.cpp:633-637),
`ContextDawn::MapWriteCallback` (ContextDawn.cpp:785-803) and
`ContextDawn::WaitABit` (ContextDawn.cpp:805-810).  Dawn delivers
mapping callbacks from `Device::Tick` on the render thread, so the
callback is modelled as firing during one of the ticks of the polling
loop; the parameter `k` is the number of ticks the device needs
before it completes the mapping.
-/

/-- Commands that can sit in `mCommandBuffers`: the command buffer of
a frame (`mCommandEncoder.Finish()`, ContextDawn.cpp:611) or the
staging-to-destination copy appended by `MapWriteCallback`
(ContextDawn.cpp:799-802). -/
inductive DawnCmd
  | frame (id : Nat)
  | copyStagingToFishPers (instances : Int)
deriving DecidableEq

/-- The submission-related state of `ContextDawn`: whether
`mappedData` is non-null, whether the map-write callback has fired,
the pending `mCommandBuffers` list, the history of `queue.Submit`
batches, the number of `Device::Tick` calls and the mirror
`mCurTotalInstance`. -/
structure FlushState where
  mappedData : Bool
  callbackFired : Bool
  commandBuffers : List DawnCmd
  submitted : List (List DawnCmd)
  ticks : Nat
  curTotalInstance : Int
deriving DecidableEq

/-- `ContextDawn::MapWriteCallback` (ContextDawn.cpp:785-803): store
the mapped pointer, copy `fishPers` into it, and append the
staging-to-destination copy command to `mCommandBuffers`. -/
def MapWriteCallback (s : FlushState) : FlushState :=
  { s with mappedData := true,
           callbackFired := true,
           commandBuffers :=
             s.commandBuffers ++ [DawnCmd.copyStagingToFishPers s.curTotalInstance] }

/-- `ContextDawn::WaitABit` (ContextDawn.cpp:805-810): one
`mDevice.Tick()` of the backend event loop. -/
def WaitABit (s : FlushState) : FlushState :=
  { s with ticks := s.ticks + 1 }

/-- The polling loop of `ContextDawn::DoFlush`
(ContextDawn.cpp:617-620): `while (mappedData == nullptr) WaitABit();`
— the device completes the mapping, and hence fires
`MapWriteCallback`, during the `(k+1)`-th tick. -/
def waitForMapping (k : Nat) (s : FlushState) : FlushState :=
  if s.mappedData then s
  else
    match k with
    | 0 => MapWriteCallback (WaitABit s)
    | k' + 1 => waitForMapping k' (WaitABit s)

/-- `ContextDawn::Flush` (ContextDawn.cpp:633-637): submit all
pending command buffers as one batch and clear the list. -/
def Flush (s : FlushState) : FlushState :=
  { s with submitted := s.submitted ++ [s.commandBuffers], commandBuffers := [] }

/-- `ContextDawn::DoFlush` (ContextDawn.cpp:608-631): finish the
frame's command buffer and append it; when `BUFFERMAPPINGASYNC` is
set, poll `WaitABit` until `mappedData` is non-null, then reset it
and unmap the staging buffer; finally `Flush` (submit). -/
def DoFlush (bufferMappingAsync : Bool) (k : Nat) (frameId : Nat) (s : FlushState) :
    FlushState :=
  let s1 := { s with commandBuffers := s.commandBuffers ++ [DawnCmd.frame frameId] }
  let s2 := if bufferMappingAsync then
      { waitForMapping k s1 with mappedData := false }
    else s1
  Flush s2

theorem waitForMapping_spec (k : Nat) (s : FlushState) (h : s.mappedData = false) :
    waitForMapping k s =
      { s with mappedData := true,
               callbackFired := true,
               ticks := s.ticks + (k + 1),
               commandBuffers :=
                 s.commandBuffers ++ [DawnCmd.copyStagingToFishPers s.curTotalInstance] } := by
  induction k generalizing s with
  | zero =>
      unfold waitForMapping
      rw [if_neg (by simp [h])]
      rfl
  | succ k' ih =>
      have hred : waitForMapping (k' + 1) s =
          if s.mappedData then s else waitForMapping k' (WaitABit s) := rfl
      rw [hred, if_neg (by simp [h])]
      rw [ih (WaitABit s) (by simp [WaitABit, h])]
      simp only [WaitABit, FlushState.mk.injEq, true_and, and_true]
      omega

/-- **C3.** With asynchronous buffer mapping enabled, and the mapping
still pending when `DoFlush` runs (no callback fired yet, `mappedData`
null): for every number `k` of device ticks the mapping needs, the
frame's command buffers are submitted only after the map-write
callback has fired and its staging-to-destination copy command has
been appended — the single `queue.Submit` batch of the frame contains
the copy command right after the frame's commands — and the wait is
realized by `k + 1` polling ticks of the backend device. -/
theorem DoFlush_waits_for_mapping (s : FlushState) (k frameId : Nat)
    (hmap : s.mappedData = false) (hcb : s.callbackFired = false) :
    (DoFlush true k frameId s).submitted =
      s.submitted ++
        [s.commandBuffers ++
          [DawnCmd.frame frameId, DawnCmd.copyStagingToFishPers s.curTotalInstance]] ∧
    (DoFlush true k frameId s).callbackFired = true ∧
    (DoFlush true k frameId s).ticks = s.ticks + (k + 1) ∧
    (DoFlush true k frameId s).commandBuffers = [] := by
  have hD : DoFlush true k frameId s =
      Flush { waitForMapping k
                { s with commandBuffers := s.commandBuffers ++ [DawnCmd.frame frameId] } with
              mappedData := false } := rfl
  rw [hD, waitForMapping_spec k _ (by simp [hmap])]
  simp [Flush]

/-- Witness for C3: a pending mapping that completes after 3 ticks is
waited out, and the copy command lands in the submitted batch. -/
theorem DoFlush_waits_for_mapping_witness :
    (DoFlush true 2 7 ⟨false, false, [], [], 0, 1000⟩).submitted =
      [[DawnCmd.frame 7, DawnCmd.copyStagingToFishPers 1000]] ∧
    (DoFlush true 2 7 ⟨false, false, [], [], 0, 1000⟩).callbackFired = true ∧
    (DoFlush true 2 7 ⟨false, false, [], [], 0, 1000⟩).ticks = 3 ∧
    (DoFlush true 2 7 ⟨false, false, [], [], 0, 1000⟩).commandBuffers = [] := by
  have h := DoFlush_waits_for_mapping ⟨false, false, [], [], 0, 1000⟩ 2 7 rfl rfl
  simpa using h

/-! ### FPSTimer

Embedding of `FPSTimer::variance` (FPSTimer.cpp:46-68) and the
history-array accesses of `FPSTimer::update` (FPSTimer.cpp:24-44).
The history buffer state is the list of values of `mHistoryFPS`;
`float` arithmetic is modelled exactly over `ℚ`.
-/

namespace FPSTimer

/-- Modelled from the spec: the length of the averaged-FPS history
(`NUM_HISTORY_DATA` in `FPSTimer.h`, "fixed small length, e.g. the
last ~hundred computed averaged-FPS values"). -/
def NUM_HISTORY_DATA : Nat := 100

/-- Modelled from the spec: the fixed stability threshold
(`FPS_VALID_THRESHOLD` in `FPSTimer.h`).  The theorems below do not
depend on its exact value. -/
def FPS_VALID_THRESHOLD : ℚ := 5

/-- `FPSTimer::variance` (FPSTimer.cpp:46-68): accumulate the history
into `avg`, divide by `NUM_HISTORY_DATA`, accumulate the squared
deviations into `var`, divide by `NUM_HISTORY_DATA`, and return
`ceil(avg)` when `var < FPS_VALID_THRESHOLD`, else 0. -/
def variance (mHistoryFPS : List ℚ) : Int :=
  let avg := (mHistoryFPS.foldl (fun acc x => acc + x) 0) / (NUM_HISTORY_DATA : ℚ)
  let var := (mHistoryFPS.foldl (fun acc x => acc + (x - avg) ^ 2) 0) / (NUM_HISTORY_DATA : ℚ)
  if var < FPS_VALID_THRESHOLD then ⌈avg⌉ else 0

end FPSTimer

/-- The mean of the stored history, independently of the fold
structure of the code. -/
def meanFPS (l : List ℚ) : ℚ := l.sum / l.length

/-- The population variance of the stored history, independently of
the fold structure of the code. -/
def popVariance (l : List ℚ) : ℚ := ((l.map (fun x => (x - meanFPS l) ^ 2)).sum) / l.length

theorem foldl_add_eq_sum (l : List ℚ) (a : ℚ) :
    l.foldl (fun acc x => acc + x) a = a + l.sum := by
  induction l generalizing a with
  | nil => simp
  | cons x xs ih => simp [ih]; ring

theorem foldl_add_sq_eq_sum (c : ℚ) (l : List ℚ) (a : ℚ) :
    l.foldl (fun acc x => acc + (x - c) ^ 2) a = a + (l.map (fun x => (x - c) ^ 2)).sum := by
  induction l generalizing a with
  | nil => simp
  | cons x xs ih => simp [ih]; ring

/-- A history state on which the claim fails: ninety samples of 2 and
ten samples of 3 (mean 2.1, population variance 0.09). -/
def histC7 : List ℚ := List.replicate 90 2 ++ List.replicate 10 3

/-- **C7 (counterexample).** On the full-length history `histC7` the
population variance (0.09) is strictly below the stability threshold,
yet `variance()` returns `3 = ⌈2.1⌉` — `ceil`, not the rounded mean
`round 2.1 = 2` (FPSTimer.cpp:64 uses `ceil(avg)`). -/
theorem variance_not_rounded_mean :
    histC7.length = FPSTimer.NUM_HISTORY_DATA ∧
    popVariance histC7 < FPSTimer.FPS_VALID_THRESHOLD ∧
    FPSTimer.variance histC7 = 3 ∧
    round (meanFPS histC7) = 2 := by
  have hsum : histC7.sum = 210 := by
    simp [histC7, List.sum_replicate, nsmul_eq_mul]
    norm_num
  have hlen : histC7.length = 100 := by simp [histC7]
  have hmean : meanFPS histC7 = 21 / 10 := by
    rw [meanFPS, hsum, hlen]
    norm_num
  have hvar : popVariance histC7 = 9 / 100 := by
    rw [popVariance, hmean, hlen]
    simp [histC7, List.sum_replicate, nsmul_eq_mul]
    norm_num
  refine ⟨by simp [histC7, FPSTimer.NUM_HISTORY_DATA], ?_, ?_, ?_⟩
  · rw [hvar]; norm_num [FPSTimer.FPS_VALID_THRESHOLD]
  · simp only [FPSTimer.variance]
    have havg : (histC7.foldl (fun acc x => acc + x) 0) / (FPSTimer.NUM_HISTORY_DATA : ℚ) =
        21 / 10 := by
      rw [foldl_add_eq_sum, zero_add, hsum]
      norm_num [FPSTimer.NUM_HISTORY_DATA]
    simp only [havg]
    simp only [foldl_add_sq_eq_sum, zero_add]
    have hv : ((histC7.map (fun x => (x - 21 / 10) ^ 2)).sum) / (FPSTimer.NUM_HISTORY_DATA : ℚ) =
        9 / 100 := by
      simp [histC7, List.sum_replicate, nsmul_eq_mul, FPSTimer.NUM_HISTORY_DATA]
      norm_num
    rw [hv]
    rw [if_pos (by norm_num [FPSTimer.FPS_VALID_THRESHOLD])]
    rw [Int.ceil_eq_iff]
    norm_num
  · rw [hmean, round_eq]
    norm_num

/-- **C7 (amended).** For every full-length state of the FPS-history
buffer, `variance()` computes the population variance of the stored
averaged-FPS history and returns the mean of that history rounded up
(`ceil`) when the variance is strictly below the fixed stability
threshold, and returns 0 otherwise. -/
theorem variance_spec (l : List ℚ) (h : l.length = FPSTimer.NUM_HISTORY_DATA) :
    FPSTimer.variance l =
      if popVariance l < FPSTimer.FPS_VALID_THRESHOLD then ⌈meanFPS l⌉ else 0 := by
  have havg : (l.foldl (fun acc x => acc + x) 0) / (FPSTimer.NUM_HISTORY_DATA : ℚ) =
      meanFPS l := by
    rw [foldl_add_eq_sum, zero_add, meanFPS, h]
  have hvar : (l.map (fun x => (x - meanFPS l) ^ 2)).sum / (FPSTimer.NUM_HISTORY_DATA : ℚ) =
      popVariance l := by
    rw [popVariance, h]
  simp only [FPSTimer.variance]
  simp only [havg]
  simp only [foldl_add_sq_eq_sum, zero_add]
  simp only [hvar]

/-- Witness for C7 (amended): the constructor state — one hundred
samples of 1.0 (FPSTimer.cpp:19) — has variance 0 and mean 1, so
`variance()` returns 1. -/
theorem variance_spec_witness :
    FPSTimer.variance (List.replicate 100 1) =
      if popVariance (List.replicate 100 1) < FPSTimer.FPS_VALID_THRESHOLD
      then ⌈meanFPS (List.replicate 100 1)⌉ else 0 :=
  variance_spec (List.replicate 100 1) (by simp [FPSTimer.NUM_HISTORY_DATA])

/-- The indices at which the history-shift loop of `FPSTimer::update`
(FPSTimer.cpp:37-41) reads `mHistoryFPS` and `mHistoryFrameTime`:
`mHistoryFPS[i + 1]` for every `i` in `[0, NUM_HISTORY_DATA)`. -/
def updateHistoryReads : List Nat :=
  (List.range FPSTimer.NUM_HISTORY_DATA).map (fun i => i + 1)

/-- The indices at which `FPSTimer::update` writes the history
arrays: `mHistoryFPS[i]` in the shift loop (FPSTimer.cpp:39-40) and
`mHistoryFPS[NUM_HISTORY_DATA - 1]` afterwards
(FPSTimer.cpp:42-43). -/
def updateHistoryWrites : List Nat :=
  List.range FPSTimer.NUM_HISTORY_DATA ++ [FPSTimer.NUM_HISTORY_DATA - 1]

/-- **C8.** The last iteration of the shift loop of
`FPSTimer::update` reads `mHistoryFPS[NUM_HISTORY_DATA]` — an index
that is not strictly less than `NUM_HISTORY_DATA`, i.e. one past the
end of both history vectors (the writes, in contrast, all stay in
bounds). -/
theorem update_history_read_out_of_bounds :
    FPSTimer.NUM_HISTORY_DATA ∈ updateHistoryReads ∧
    ¬ FPSTimer.NUM_HISTORY_DATA < FPSTimer.NUM_HISTORY_DATA ∧
    (∀ i ∈ updateHistoryWrites, i < FPSTimer.NUM_HISTORY_DATA) := by decide

/-! ### The batched drawing pass of `Aquarium::updateAndDraw`

Embedding of the DRAWPERMODEL loop (Aquarium.cpp:876-888).  The
`MODELNAME` enum values are modelled from the spec and from their use
in Aquarium.cpp (statics `MODELRUINCOLUMN..MODELSEAWEEDB`, the five
fish species starting at `MODELSMALLFISHA`, their five instanced-draw
twins, further scenery models, and the count `MODELMAX` as the last
enumerator); only the ordering facts visible in Aquarium.cpp matter
for the theorem.
-/

/-- Modelled from the spec: first static model (`MODELNAME`, value 0). -/
def MODELRUINCOLUMN : Nat := 0

/-- Modelled from the spec: last static model of the first loop. -/
def MODELSEAWEEDB : Nat := 6

/-- Modelled from the spec: first (SMALL) fish species model. -/
def MODELSMALLFISHA : Nat := 7

/-- Modelled from the spec: last fish species model. -/
def MODELBIGFISHB : Nat := 11

/-- Modelled from the spec: first instanced-draw fish model. -/
def MODELSMALLFISHAINSTANCEDDRAWS : Nat := 12

/-- Modelled from the spec: last instanced-draw fish model. -/
def MODELBIGFISHBINSTANCEDDRAWS : Nat := 16

/-- Modelled from the spec: number of `MODELNAME` enumerators, the
size of `mAquariumModels`. -/
def MODELMAX : Nat := 22

/-- `fishBegin` of `Aquarium::updateAndDraw` (Aquarium.cpp:793-796). -/
def fishBegin (enableInstancedDraws : Bool) : Nat :=
  if enableInstancedDraws then MODELSMALLFISHAINSTANCEDDRAWS else MODELSMALLFISHA

/-- `fishEnd` of `Aquarium::updateAndDraw` (Aquarium.cpp:797-800). -/
def fishEnd (enableInstancedDraws : Bool) : Nat :=
  if enableInstancedDraws then MODELBIGFISHBINSTANCEDDRAWS else MODELBIGFISHB

/-- The `continue` guard of the batched loop (Aquarium.cpp:880-881):
a slot `i ≥ MODELSMALLFISHA` outside `[fishBegin, fishEnd]` is
skipped. -/
def skippedInBatchedPass (enableInstancedDraws : Bool) (i : Nat) : Bool :=
  decide (MODELSMALLFISHA ≤ i) &&
    (decide (i < fishBegin enableInstancedDraws) ||
     decide (fishEnd enableInstancedDraws < i))

/-- The indices at which the batched (draw-per-model) loop of
`Aquarium::updateAndDraw` (Aquarium.cpp:879-884) accesses
`mAquariumModels`: the loop runs `i = 0 .. MODELMAX` inclusive and
accesses `mAquariumModels[i]` exactly when the guard does not skip
`i`. -/
def batchedDrawModelIndices (enableInstancedDraws : Bool) : List Nat :=
  (List.range (MODELMAX + 1)).filter (fun i => ! skippedInBatchedPass enableInstancedDraws i)

/-- **C9.** In the batched drawing pass, every index used to access
`mAquariumModels` is strictly less than `MODELMAX` (in both
instanced-draw modes): although the loop counter itself reaches
`MODELMAX`, the skip guard filters that value out, so no draw is ever
issued through an out-of-bounds model slot. -/
theorem batchedDraw_indices_in_bounds :
    ∀ enableInstancedDraws : Bool,
      ∀ i ∈ batchedDrawModelIndices enableInstancedDraws, i < MODELMAX := by decide

/-- Witness for C9: the first static slot is drawn and in bounds. -/
theorem batchedDraw_indices_in_bounds_witness : MODELRUINCOLUMN < MODELMAX :=
  batchedDraw_indices_in_bounds false MODELRUINCOLUMN (by decide)

/-! ### `fishCount` initialisation in the `Aquarium` constructor

Byte-level model of `memset(fishCount, 0, 5)` (Aquarium.cpp:84) over
`int fishCount[5]`; `sizeof(int)` is 4 on every supported platform,
so the array occupies bytes `[0, 20)` and entry `i` occupies bytes
`[4*i, 4*i+4)`.
-/

/-- `sizeof(int)` on the supported platforms. -/
def sizeofInt : Nat := 4

/-- The byte count passed to `memset` in the constructor
(Aquarium.cpp:84): the literal `5`, not `sizeof(fishCount) = 20`. -/
def memsetByteCount : Nat := 5

/-- Whether byte `b` of the `fishCount` array is zeroed by
`memset(fishCount, 0, 5)`. -/
def byteZeroed (b : Nat) : Bool := decide (b < memsetByteCount)

/-- Whether entry `i` of `fishCount` has all of its `sizeof(int)`
bytes zeroed by the constructor's `memset`. -/
def entryFullyZeroed (i : Nat) : Bool :=
  (List.range sizeofInt).all (fun b => byteZeroed (sizeofInt * i + b))

/-- **C10.** `memset(fishCount, 0, 5)` zeroes only the first five of
the twenty bytes of `int fishCount[5]`: entry 0 is fully zeroed, but
entries 1 through 4 are not — they keep indeterminate bytes, so the
claim that all five entries are zero after construction fails on
every entry except the first. -/
theorem fishCount_memset_underwrites :
    entryFullyZeroed 0 = true ∧ entryFullyZeroed 1 = false ∧
    entryFullyZeroed 2 = false ∧ entryFullyZeroed 3 = false ∧
    entryFullyZeroed 4 = false := by decide
